import Mathlib

/-!
Shallow embedding of the building-physics simulator's heat-balance core:
the solar-geometry and sol-air routines, the steady-state hourly engine
(`physics.py`), and the dynamic RC thermal-mass engine (`src/rc_model.py`),
together with the data model of `src/building.py` and the constants of
`config.py`.  Machine floats are modelled as real numbers; numpy
vectorized arithmetic is modelled per row index; Python `raise ValueError`
is modelled as `Except.error` carrying the message string.
-/

namespace BPS

/-- Physical constants from config.py. -/
noncomputable def RHO_AIR : ℝ := 1.2

/-- Specific heat capacity of air, from config.py. -/
noncomputable def CP_AIR : ℝ := 1005

/-- Exterior film coefficient, from config.py. -/
noncomputable def H_E : ℝ := 25

/-- numpy deg2rad: degrees to radians. -/
noncomputable def deg2rad (x : ℝ) : ℝ := x * (Real.pi / 180)

/-- physics.py cos_incidence: cosine of the incidence angle on a tilted
plane, evaluated at one row of the weather series. -/
noncomputable def cos_incidence (theta_s_deg phi_s_deg tilt_deg azimuth_deg : ℝ) : ℝ :=
  let ths := deg2rad theta_s_deg
  let phs := deg2rad phi_s_deg
  let thp := deg2rad tilt_deg
  let php := deg2rad azimuth_deg
  Real.sin ths * Real.sin thp * Real.cos (phs - php) + Real.cos ths * Real.cos thp

/-- physics.py plane_irradiance: total irradiance on a tilted plane. -/
noncomputable def plane_irradiance (I_dir I_dif cos_i tilt : ℝ) : ℝ :=
  let cos_tilt := Real.cos (deg2rad tilt)
  let F_sky := (1 + cos_tilt) / 2
  max 0 (I_dir * max 0 cos_i) + I_dif * F_sky

/-- physics.py sol_air_temp: sol-air temperature; the epsilon and I_LW
arguments are accepted but unused by the source (longwave neglected). -/
noncomputable def sol_air_temp (T_out I_p alpha epsilon : ℝ) (I_LW : Option ℝ) (h_e : ℝ) : ℝ :=
  T_out + (alpha * I_p) / h_e

/-- src/physics.py cos_inc: identical incidence-cosine formula of the
second (src/) steady engine. -/
noncomputable def cos_inc (zenith azimuth_sun tilt azimuth_surf : ℝ) : ℝ :=
  let zenith_rad := deg2rad zenith
  let azimuth_sun_rad := deg2rad azimuth_sun
  let tilt_rad := deg2rad tilt
  let azimuth_surf_rad := deg2rad azimuth_surf
  Real.sin zenith_rad * Real.sin tilt_rad * Real.cos (azimuth_sun_rad - azimuth_surf_rad) +
    Real.cos zenith_rad * Real.cos tilt_rad

/-- src/physics.py irradiance_on_plane: total irradiance on a tilted
plane in the src/ variant; I_beam = I_dir * max 0 cos_i, then clipped. -/
noncomputable def irradiance_on_plane (I_dir I_dif cos_i tilt : ℝ) : ℝ :=
  let F_sky := (1 + Real.cos (deg2rad tilt)) / 2
  let I_beam := I_dir * max 0 cos_i
  max 0 I_beam + I_dif * F_sky

/-- src/physics.py sol_air: sol-air temperature of the src/ variant. -/
noncomputable def sol_air (T_out I_sol alpha h_e : ℝ) : ℝ :=
  T_out + alpha * I_sol / h_e

/-- src/building.py Plane: one envelope surface.  `type` is the Python
string tag inspected by is_opaque / is_window; F_sh defaults to 1 but
physics.py treats a missing value as 1 as well, hence the Option. -/
structure Plane where
  name : String
  type : String
  area_m2 : ℝ
  tilt_deg : ℝ
  azimuth_deg : ℝ
  U : ℝ
  alpha : Option ℝ := none
  epsilon : Option ℝ := none
  g : Option ℝ := none
  F_sh : Option ℝ := some 1
  ground_contact : Bool := false

/-- src/building.py Plane.is_opaque. -/
def Plane.isOpaque (p : Plane) : Bool := p.type == "opaque"

/-- src/building.py Plane.is_window. -/
def Plane.isWindow (p : Plane) : Bool := p.type == "window"

/-- src/building.py AirSide. -/
structure AirSide where
  V_zone_m3 : ℝ
  Vdot_vent_m3s : ℝ
  eta_HRV : ℝ
  ACH_infiltration_h : ℝ

/-- src/building.py InternalGains. -/
structure InternalGains where
  Q_equip_kW : ℝ := 0
  Q_occ_kW : ℝ := 0
  Q_light_kW : ℝ := 0

/-- src/building.py InternalGains.total_kw. -/
noncomputable def InternalGains.total_kw (gs : InternalGains) : ℝ :=
  gs.Q_equip_kW + gs.Q_occ_kW + gs.Q_light_kW

/-- src/rc_model.py calc_T_C: thermal-mass temperature at the current
timestep of the 3-resistance model (Gori 2017 Eq 3.5 with the surface
node eliminated). -/
noncomputable def calc_T_C (T_C_prev T_int_curr T_int_prev T_ext_curr T_ext_prev
    I_sol_curr I_sol_prev R1 R2 R3 C alpha tau : ℝ) : ℝ :=
  let R_ext := R2 + R3
  let solar_factor := alpha * R3 / R_ext
  let numerator := (T_int_curr + T_int_prev) / R1 +
      (T_ext_curr + T_ext_prev) / R_ext +
      solar_factor * (I_sol_curr + I_sol_prev) +
      (2 * C / tau - 1 / R1 - 1 / R_ext) * T_C_prev
  let denominator := 2 * C / tau + 1 / R1 + 1 / R_ext
  numerator / denominator

/-- src/rc_model.py calc_heat_flux: heat flux from thermal mass to the
indoor air at one timestep. -/
noncomputable def calc_heat_flux (T_C T_int R1 : ℝ) : ℝ :=
  (T_C - T_int) / R1

/-- A pandas weather DataFrame as seen by physics.py run_hourly: each
named column is either present (a list of per-row values, timestamps
modelled as reals) or absent.  In a DataFrame every present column has
the same number of rows; theorems that need that fact take it as a
hypothesis. -/
structure Weather where
  timestamp : Option (List ℝ) := none
  T_out_C : Option (List ℝ) := none
  I_dir_Wm2 : Option (List ℝ) := none
  I_dif_Wm2 : Option (List ℝ) := none
  theta_s_deg : Option (List ℝ) := none
  phi_s_deg : Option (List ℝ) := none
  I_LW_Wm2 : Option (List ℝ) := none
  T_ground_C : Option (List ℝ) := none

/-- The req_cols list of physics.py run_hourly, in source order. -/
def reqCols : List String :=
  ["timestamp", "T_out_C", "I_dir_Wm2", "I_dif_Wm2", "theta_s_deg", "phi_s_deg"]

/-- Column lookup by pandas column name. -/
def Weather.col (w : Weather) : String → Option (List ℝ)
  | "timestamp" => w.timestamp
  | "T_out_C" => w.T_out_C
  | "I_dir_Wm2" => w.I_dir_Wm2
  | "I_dif_Wm2" => w.I_dif_Wm2
  | "theta_s_deg" => w.theta_s_deg
  | "phi_s_deg" => w.phi_s_deg
  | "I_LW_Wm2" => w.I_LW_Wm2
  | "T_ground_C" => w.T_ground_C
  | _ => none

/-- The `for col in req_cols: if col not in weather.columns: raise` loop:
the first required column that is absent, if any. -/
def firstMissingCol (w : Weather) : Option String :=
  reqCols.find? (fun c => (w.col c).isNone)

/-- A numpy column vector as a function of the row index (rows past the
end never arise for a well-formed DataFrame). -/
def colFun (l : List ℝ) (i : ℕ) : ℝ := l.getD i 0

/-- One row of the result DataFrame returned by physics.py run_hourly. -/
structure ResultRow where
  timestamp : ℝ
  T_out_C : ℝ
  Q_trans_h_W : ℝ
  Q_air_h_W : ℝ
  Q_heat_W : ℝ
  Q_trans_c_W : ℝ
  Q_air_c_W : ℝ
  Q_solar_W : ℝ
  Q_int_W : ℝ
  Q_kitchen_W : ℝ
  Q_cool_W : ℝ

/-- The body of the `for p in planes:` loop of physics.py run_hourly for
one plane: its additive contributions (per row index) to Q_trans_h,
Q_trans_c and Q_solar, or the ValueError the loop raises for a plane
missing a required property. -/
noncomputable def planeStep (p : Plane) (tout idir idif ths phs : ℕ → ℝ)
    (ilw tgnd : Option (ℕ → ℝ)) (T_heat T_cool : ℝ) :
    Except String ((ℕ → ℝ) × (ℕ → ℝ) × (ℕ → ℝ)) :=
  let cosI : ℕ → ℝ := fun i => cos_incidence (ths i) (phs i) p.tilt_deg p.azimuth_deg
  let Ip : ℕ → ℝ := fun i => plane_irradiance (idir i) (idif i) (cosI i) p.tilt_deg
  if p.isOpaque then
    if p.ground_contact then
      match tgnd with
      | none => .error (p.name ++ " needs T_ground_C")
      | some tg =>
          -- ground contact must not provide free cooling: clip at 0
          .ok (fun i => p.U * p.area_m2 * (tg i - T_heat),
               fun i => max 0 (p.U * p.area_m2 * (tg i - T_cool)),
               fun _ => 0)
    else
      match p.alpha, p.epsilon with
      | some a, some e =>
          -- heating boundary is T_out; cooling boundary is max(T_sol, T_out)
          let tSol : ℕ → ℝ := fun i => sol_air_temp (tout i) (Ip i) a e (ilw.map (· i)) H_E
          .ok (fun i => p.U * p.area_m2 * (tout i - T_heat),
               fun i => p.U * p.area_m2 * (max (tSol i) (tout i) - T_cool),
               fun _ => 0)
      | _, _ => .error (p.name ++ " needs alpha/epsilon")
  else if p.isWindow then
    match p.g with
    | none =>
        -- the g check aborts the call; the conductive terms already
        -- accumulated are never returned
        .error (p.name ++ " needs g")
    | some g =>
        let fsh := p.F_sh.getD 1
        .ok (fun i => p.U * p.area_m2 * (tout i - T_heat),
             fun i => p.U * p.area_m2 * (tout i - T_cool),
             fun i => g * p.area_m2 * Ip i * fsh)
  else
    .ok (fun _ => 0, fun _ => 0, fun _ => 0)

/-- The full plane loop: sums the per-plane contributions in list order,
propagating the first ValueError raised. -/
noncomputable def planesLoop (planes : List Plane) (tout idir idif ths phs : ℕ → ℝ)
    (ilw tgnd : Option (ℕ → ℝ)) (T_heat T_cool : ℝ) :
    Except String ((ℕ → ℝ) × (ℕ → ℝ) × (ℕ → ℝ)) :=
  match planes with
  | [] => .ok (fun _ => 0, fun _ => 0, fun _ => 0)
  | p :: rest => do
      let (qh, qc, qs) ← planeStep p tout idir idif ths phs ilw tgnd T_heat T_cool
      let (rh, rcc, rs) ← planesLoop rest tout idir idif ths phs ilw tgnd T_heat T_cool
      .ok (fun i => qh i + rh i, fun i => qc i + rcc i, fun i => qs i + rs i)

/-- The air-exchange factor rho*cp*(Vdot_vent*(1-eta_HRV) + V_inf) of
physics.py run_hourly. -/
noncomputable def airFactor (air : AirSide) : ℝ :=
  let V_inf := air.ACH_infiltration_h * air.V_zone_m3 / 3600
  RHO_AIR * CP_AIR * (air.Vdot_vent_m3s * (1 - air.eta_HRV) + V_inf)

/-- The internal-gains term of physics.py run_hourly: kW scaled to W
when a gains object is passed (`if gains:`), else zero. -/
noncomputable def gainsTerm (gains : Option InternalGains) : ℝ :=
  match gains with
  | some gs => gs.total_kw * 1000
  | none => 0

/-- The kitchen term of physics.py run_hourly at one row: kitchen_kw
scaled to W on rows whose kitchen_on flag is set, when kitchen_kw > 0
and a schedule was passed. -/
noncomputable def kitchenTerm (kitchen_kw : ℝ) (kitchen_on : Option (List Bool)) (i : ℕ) : ℝ :=
  if 0 < kitchen_kw then
    match kitchen_on with
    | some ks => if ks.getD i false then kitchen_kw * 1000 else 0
    | none => 0
  else 0

/-- The result DataFrame assembled at the end of physics.py run_hourly,
from the accumulated plane sums and the air/gains terms. -/
noncomputable def hourlyTable (ts : List ℝ) (tout : ℕ → ℝ) (qth qtc qsol : ℕ → ℝ)
    (air : AirSide) (T_heat T_cool : ℝ) (gains : Option InternalGains)
    (kitchen_kw : ℝ) (kitchen_on : Option (List Bool)) : List ResultRow :=
  let qah : ℕ → ℝ := fun i => airFactor air * (tout i - T_heat)
  let qac : ℕ → ℝ := fun i => airFactor air * (tout i - T_cool)
  let qint := gainsTerm gains
  (List.range ts.length).map (fun i =>
    { timestamp := ts.getD i 0
      T_out_C := tout i
      Q_trans_h_W := qth i
      Q_air_h_W := qah i
      -- conservative heating: solar/internal gains excluded
      Q_heat_W := max 0 (-(qth i) - qah i)
      Q_trans_c_W := qtc i
      Q_air_c_W := qac i
      Q_solar_W := qsol i
      Q_int_W := qint
      Q_kitchen_W := kitchenTerm kitchen_kw kitchen_on i
      -- realistic cooling: all gains included
      Q_cool_W := max 0 (qtc i + qac i + qsol i + qint + kitchenTerm kitchen_kw kitchen_on i) })

/-- physics.py run_hourly: the steady-state hourly engine.  Raised
ValueErrors become `Except.error` with the source's message; on success
the result DataFrame is the list of per-timestep rows (`n = len(w)` is
the common length of the DataFrame's columns, read off the timestamp
column). -/
noncomputable def run_hourly (weather : Weather) (planes : List Plane) (air : AirSide)
    (T_heat T_cool : ℝ) (gains : Option InternalGains := none)
    (kitchen_kw : ℝ := 0) (kitchen_on : Option (List Bool) := none) :
    Except String (List ResultRow) :=
  match firstMissingCol weather with
  | some c => .error ("Missing: " ++ c)
  | none =>
    -- all required columns are present past the guard
    match planesLoop planes (colFun (weather.T_out_C.getD [])) (colFun (weather.I_dir_Wm2.getD []))
        (colFun (weather.I_dif_Wm2.getD [])) (colFun (weather.theta_s_deg.getD []))
        (colFun (weather.phi_s_deg.getD [])) (weather.I_LW_Wm2.map colFun)
        (weather.T_ground_C.map colFun) T_heat T_cool with
    | .error msg => .error msg
    | .ok (qth, qtc, qsol) =>
      .ok (hourlyTable (weather.timestamp.getD []) (colFun (weather.T_out_C.getD []))
        qth qtc qsol air T_heat T_cool gains kitchen_kw kitchen_on)

/-- One thermal-mass surface of the RC envelope: the per-surface dict
{R1, R2, R3, C, alpha, area} built by rc_main.build_envelope_3r. -/
structure Surf where
  R1 : ℝ
  R2 : ℝ
  R3 : ℝ
  C : ℝ
  alpha : ℝ
  area : ℝ

/-- The windows dict {R, area, g} of the RC envelope. -/
structure Win where
  R : ℝ
  area : ℝ
  g : ℝ

/-- The envelope dict {roof, walls:{N,S,E,W}, windows} consumed by
src/rc_model.py run_rc_hourly. -/
structure Envelope where
  roof : Surf
  north : Surf
  south : Surf
  east : Surf
  west : Surf
  windows : Win

/-- Modelled from the spec: the air-side object whose class is not in
the repository (src/rc_model.py reads `air.infiltration` — infiltration
air-changes-per-hour — and `air.volume` — zone volume in m³ — of the
AirSide record of spec section 3). -/
structure AirRC where
  volume : ℝ
  infiltration : ℝ

/-- Modelled from the spec: the internal-gains object whose class is not
in the repository (src/rc_model.py calls `gains.total()`; spec section 3:
named non-negative heat components exposing a total, in kW since the
engine scales by 1000 to W). -/
structure GainsRC where
  total : ℝ

/-- The thermal-mass temperature series of one surface: T_init = 10.0 at
step 0, then the `for p in range(1, n_steps)` loop of
src/rc_model.py run_rc_hourly applying calc_T_C. -/
noncomputable def T_C_seq (s : Surf) (T_int T_out I_sol : ℕ → ℝ) (tau : ℝ) : ℕ → ℝ
  | 0 => 10
  | p + 1 =>
      calc_T_C (T_C_seq s T_int T_out I_sol tau p) (T_int (p + 1)) (T_int p)
        (T_out (p + 1)) (T_out p) (I_sol (p + 1)) (I_sol p)
        s.R1 s.R2 s.R3 s.C s.alpha tau

/-- One row of the result DataFrame of src/rc_model.py run_rc_hourly. -/
structure RCRow where
  timestamp : ℝ
  T_out_C : ℝ
  T_int_C : ℝ
  T_C_roof : ℝ
  T_C_N : ℝ
  T_C_S : ℝ
  T_C_E : ℝ
  T_C_W : ℝ
  I_sol_roof : ℝ
  I_sol_S : ℝ
  Q_roof_W : ℝ
  Q_walls_W : ℝ
  Q_win_W : ℝ
  Q_inf_W : ℝ
  Q_vent_W : ℝ
  Q_solar_W : ℝ
  Q_int_W : ℝ
  Q_heat_W : ℝ

/-- src/rc_model.py run_rc_hourly past its input-resampling prologue:
the engine proper, taking the weather series already at the simulation
cadence (the pandas resample/linear-interpolate call on lines 64-69 is
library code, the identity on a series already at the target cadence;
spec section 4.4 treats resampling as an external collaborator
contract).  dt_minutes is the timestep in minutes, tau = dt_minutes*60
seconds. -/
noncomputable def run_rc_hourly (ts touts thss phss idirs idifs : List ℝ)
    (env : Envelope) (air : AirRC) (T_set vent_ACH : ℝ) (gains : GainsRC)
    (dt_minutes : ℝ := 15) : List RCRow :=
  let n_steps := ts.length
  let tau := dt_minutes * 60
  let T_out := colFun touts
  let T_int : ℕ → ℝ := fun _ => T_set
  let theta_s := colFun thss
  let phi_s := colFun phss
  let I_dir := colFun idirs
  let I_dif := colFun idifs
  let I_sol_roof : ℕ → ℝ := fun i =>
    irradiance_on_plane (I_dir i) (I_dif i) (cos_inc (theta_s i) (phi_s i) 0 0) 0
  let I_sol_N : ℕ → ℝ := fun i =>
    irradiance_on_plane (I_dir i) (I_dif i) (cos_inc (theta_s i) (phi_s i) 90 0) 90
  let I_sol_S : ℕ → ℝ := fun i =>
    irradiance_on_plane (I_dir i) (I_dif i) (cos_inc (theta_s i) (phi_s i) 90 180) 90
  let I_sol_E : ℕ → ℝ := fun i =>
    irradiance_on_plane (I_dir i) (I_dif i) (cos_inc (theta_s i) (phi_s i) 90 90) 90
  let I_sol_W : ℕ → ℝ := fun i =>
    irradiance_on_plane (I_dir i) (I_dif i) (cos_inc (theta_s i) (phi_s i) 90 270) 90
  let T_C_roof := T_C_seq env.roof T_int T_out I_sol_roof tau
  let T_C_N := T_C_seq env.north T_int T_out I_sol_N tau
  let T_C_S := T_C_seq env.south T_int T_out I_sol_S tau
  let T_C_E := T_C_seq env.east T_int T_out I_sol_E tau
  let T_C_W := T_C_seq env.west T_int T_out I_sol_W tau
  -- heat loss through the envelope: -q * area per surface
  let Q_roof : ℕ → ℝ := fun i => -(calc_heat_flux (T_C_roof i) (T_int i) env.roof.R1) * env.roof.area
  let Q_N : ℕ → ℝ := fun i => -(calc_heat_flux (T_C_N i) (T_int i) env.north.R1) * env.north.area
  let Q_S : ℕ → ℝ := fun i => -(calc_heat_flux (T_C_S i) (T_int i) env.south.R1) * env.south.area
  let Q_E : ℕ → ℝ := fun i => -(calc_heat_flux (T_C_E i) (T_int i) env.east.R1) * env.east.area
  let Q_W : ℕ → ℝ := fun i => -(calc_heat_flux (T_C_W i) (T_int i) env.west.R1) * env.west.area
  let Q_walls : ℕ → ℝ := fun i => Q_N i + Q_S i + Q_E i + Q_W i
  -- windows, steady state
  let U_win := 1 / env.windows.R
  let Q_win : ℕ → ℝ := fun i => U_win * env.windows.area * (T_int i - T_out i)
  -- window solar gains (south-facing aperture)
  let I_sol_win : ℕ → ℝ := fun i =>
    irradiance_on_plane (I_dir i) (I_dif i) (cos_inc (theta_s i) (phi_s i) 90 180) 90
  let Q_solar : ℕ → ℝ := fun i => env.windows.g * env.windows.area * I_sol_win i
  -- infiltration and ventilation
  let Vdot_inf := air.infiltration * air.volume / 3600
  let Q_inf : ℕ → ℝ := fun i => RHO_AIR * CP_AIR * Vdot_inf * (T_int i - T_out i)
  let Vdot_vent := vent_ACH * air.volume / 3600
  let Q_vent : ℕ → ℝ := fun i =>
    if 0 < Vdot_vent then RHO_AIR * CP_AIR * Vdot_vent * (T_int i - T_out i) else 0
  let Q_int : ℝ := gains.total * 1000
  -- heating demand: solar and internal gains are subtracted inside the clamp
  let Q_heat : ℕ → ℝ := fun i =>
    max 0 (Q_roof i + Q_walls i + Q_win i + Q_inf i + Q_vent i - Q_solar i - Q_int)
  (List.range n_steps).map (fun i =>
    { timestamp := ts.getD i 0
      T_out_C := T_out i
      T_int_C := T_int i
      T_C_roof := T_C_roof i
      T_C_N := T_C_N i
      T_C_S := T_C_S i
      T_C_E := T_C_E i
      T_C_W := T_C_W i
      I_sol_roof := I_sol_roof i
      I_sol_S := I_sol_S i
      Q_roof_W := Q_roof i
      Q_walls_W := Q_walls i
      Q_win_W := Q_win i
      Q_inf_W := Q_inf i
      Q_vent_W := Q_vent i
      Q_solar_W := Q_solar i
      Q_int_W := Q_int
      Q_heat_W := Q_heat i })

/-- Modelled from the spec: the plane record consumed by the second
steady engine, src/physics.py run_hourly (the class providing `type`,
`area`, `tilt`, `azimuth`, `r`, `alpha`, `g`, `F_sh`, `is_opaque()`,
`is_window()` and `R()` is not in the repository); spec section 3 Plane:
identifier kind, area, tilt, azimuth, an equivalent resistance, solar
absorptance alpha, window g and shading factor F_sh. -/
structure PlaneS where
  type : String
  area : ℝ
  tilt : ℝ
  azimuth : ℝ
  r : ℝ
  alpha : ℝ
  g : ℝ
  F_sh : ℝ

/-- The missing Plane class's is_opaque, as in src/building.py. -/
def PlaneS.isOpaque (p : PlaneS) : Bool := p.type == "opaque"

/-- The missing Plane class's is_window, as in src/building.py. -/
def PlaneS.isWindow (p : PlaneS) : Bool := p.type == "window"

/-- Modelled from the spec: the missing Plane class's R() — the plane's
absolute thermal resistance, "supplied resistance/area" (spec section
4.3 step 1), consistent with the engine's parallel window resistance
1/sum(area/r). -/
noncomputable def PlaneS.R (p : PlaneS) : ℝ := p.r / p.area

/-- One row of the result DataFrame of src/physics.py run_hourly. -/
structure SRow where
  timestamp : ℝ
  T_out_C : ℝ
  T_int_C : ℝ
  vent_ACH : ℝ
  Q_roof_W : ℝ
  Q_walls_W : ℝ
  Q_win_W : ℝ
  Q_inf_W : ℝ
  Q_vent_W : ℝ
  Q_solar_W : ℝ
  Q_int_W : ℝ
  Q_heat_W : ℝ

/-- The `for plane in planes:` loop of src/physics.py run_hourly: the
accumulated (Q_roof, Q_walls, Q_solar) per-row sums.  Opaque planes
contribute (T_in - T_sa)/R() to the roof sum when tilt == 0 and to the
wall sum otherwise; windows contribute g*area*I_sol*F_sh to the solar
sum. -/
noncomputable def sLoop (planes : List PlaneS) (T_in T_out theta_s phi_s I_dir I_dif : ℕ → ℝ) :
    (ℕ → ℝ) × (ℕ → ℝ) × (ℕ → ℝ) :=
  match planes with
  | [] => (fun _ => 0, fun _ => 0, fun _ => 0)
  | p :: rest =>
      let sums := sLoop rest T_in T_out theta_s phi_s I_dir I_dif
      let I_sol : ℕ → ℝ := fun i =>
        irradiance_on_plane (I_dir i) (I_dif i)
          (cos_inc (theta_s i) (phi_s i) p.tilt p.azimuth) p.tilt
      if p.isOpaque then
        let Q : ℕ → ℝ := fun i =>
          (T_in i - sol_air (T_out i) (I_sol i) p.alpha H_E) / p.R
        if p.tilt = 0 then (fun i => sums.1 i + Q i, sums.2.1, sums.2.2)
        else (sums.1, fun i => sums.2.1 i + Q i, sums.2.2)
      else if p.isWindow then
        (sums.1, sums.2.1, fun i => sums.2.2 i + p.g * p.area * I_sol i * p.F_sh)
      else sums

/-- src/physics.py run_hourly: the second (src/) steady-state engine.
Weather columns are passed as lists (this engine performs no column
validation); T_set is taken in its scalar form and vent_ACH as the
optional scalar the source defaults to 0.  The numpy-infinity
resistance sentinels (R_inf, R_vent when an airflow is zero) are
modelled by their effect, a zero heat-exchange term, since a finite
temperature difference divided by infinity is zero. -/
noncomputable def SrcPhysics.run_hourly (ts touts thss phss idirs idifs : List ℝ)
    (planes : List PlaneS) (air : AirRC) (T_set : ℝ) (vent_ACH : Option ℝ)
    (gains : Option GainsRC) : List SRow :=
  let n_hours := ts.length
  let T_out := colFun touts
  let T_in : ℕ → ℝ := fun _ => T_set
  let vent : ℕ → ℝ := fun _ => vent_ACH.getD 0
  -- parallel windows resistance
  let R_win := 1 / (((planes.filter (fun p => p.isWindow)).map (fun p => p.area / p.r)).sum)
  let Vdot_inf := air.infiltration * air.volume / 3600
  let sums := sLoop planes T_in T_out (colFun thss) (colFun phss) (colFun idirs) (colFun idifs)
  let Q_win : ℕ → ℝ := fun i => (T_in i - T_out i) / R_win
  let Q_inf : ℕ → ℝ := fun i =>
    if 0 < Vdot_inf then RHO_AIR * CP_AIR * Vdot_inf * (T_in i - T_out i) else 0
  let Vdot_vent : ℕ → ℝ := fun i => vent i * air.volume / 3600
  let Q_vent : ℕ → ℝ := fun i =>
    if 0 < Vdot_vent i then RHO_AIR * CP_AIR * Vdot_vent i * (T_in i - T_out i) else 0
  let Q_int : ℝ := match gains with | some gs => gs.total * 1000 | none => 0
  -- heating demand: solar and internal gains are subtracted inside the clamp
  let Q_heat : ℕ → ℝ := fun i =>
    max 0 (sums.1 i + sums.2.1 i + Q_win i + Q_inf i + Q_vent i - sums.2.2 i - Q_int)
  (List.range n_hours).map (fun i =>
    { timestamp := ts.getD i 0
      T_out_C := T_out i
      T_int_C := T_in i
      vent_ACH := vent i
      Q_roof_W := sums.1 i
      Q_walls_W := sums.2.1 i
      Q_win_W := Q_win i
      Q_inf_W := Q_inf i
      Q_vent_W := Q_vent i
      Q_solar_W := sums.2.2 i
      Q_int_W := Q_int
      Q_heat_W := Q_heat i })

/-- The 3-resistor mass-temperature update exactly as the spec writes it
(section 4.4): the 2-resistor implicit-average form with R2 replaced by
(R2+R3) and the solar driving term scaled by R3/(R2+R3).  Written from
the spec's words, to be compared with the source's calc_T_C. -/
noncomputable def calc_T_C_specForm (T_C_prev T_int_curr T_int_prev T_ext_curr T_ext_prev
    I_sol_curr I_sol_prev R1 R2 R3 C alpha tau : ℝ) : ℝ :=
  ((T_int_curr + T_int_prev) / R1 +
      (T_ext_curr + T_ext_prev) / (R2 + R3) +
      alpha * R3 / (R2 + R3) * (I_sol_curr + I_sol_prev) +
      (2 * C / tau - 1 / R1 - 1 / (R2 + R3)) * T_C_prev) /
    (2 * C / tau + 1 / R1 + 1 / (R2 + R3))

/-- The iterated mass-temperature recurrence of src/rc_model.py under
constant forcing T_int = T_ext = Tstar with zero solar input, started
from an arbitrary initial value T0 (the caller-chosen initial condition;
run_rc_hourly uses 10). -/
noncomputable def rcConstIter (R1 R2 R3 C alpha tau Tstar T0 : ℝ) : ℕ → ℝ
  | 0 => T0
  | p + 1 =>
      calc_T_C (rcConstIter R1 R2 R3 C alpha tau Tstar T0 p)
        Tstar Tstar Tstar Tstar 0 0 R1 R2 R3 C alpha tau

/-- The per-step error contraction factor of the implicit-average
update under constant forcing. -/
noncomputable def rcLam (R1 R2 R3 C tau : ℝ) : ℝ :=
  (2 * C / tau - (1 / R1 + 1 / (R2 + R3))) / (2 * C / tau + (1 / R1 + 1 / (R2 + R3)))

/-- A plane that physics.py run_hourly rejects: an opaque ground-coupled
plane without a ground-temperature column, an exposed opaque plane
without alpha/epsilon, or a window without g. -/
def badPlane (p : Plane) (tgnd : Option (ℕ → ℝ)) : Prop :=
  (p.isOpaque ∧ p.ground_contact ∧ tgnd = none) ∨
  (p.isOpaque ∧ ¬p.ground_contact ∧ (p.alpha = none ∨ p.epsilon = none)) ∨
  (¬p.isOpaque ∧ p.isWindow ∧ p.g = none)

/-- The ValueError message physics.py run_hourly raises for a rejected
plane: the plane's name followed by the missing property. -/
def planeErrMsg (p : Plane) : String :=
  if p.isOpaque then
    if p.ground_contact then p.name ++ " needs T_ground_C"
    else p.name ++ " needs alpha/epsilon"
  else p.name ++ " needs g"

/-- A one-row weather table with all required columns, outdoor
temperature 20, no sun. -/
noncomputable def wSimple : Weather :=
  { timestamp := some [0], T_out_C := some [20], I_dir_Wm2 := some [0],
    I_dif_Wm2 := some [0], theta_s_deg := some [0], phi_s_deg := some [0] }

/-- The one-row weather table of wSimple with a ground-temperature
column at 10 degrees. -/
noncomputable def wGround : Weather :=
  { timestamp := some [0], T_out_C := some [20], I_dir_Wm2 := some [0],
    I_dif_Wm2 := some [0], theta_s_deg := some [0], phi_s_deg := some [0],
    T_ground_C := some [10] }

/-- An air side with no ventilation and no infiltration. -/
noncomputable def airZero : AirSide := ⟨0, 0, 0, 0⟩

/-- A ground-coupled opaque floor plane of unit U-value and area. -/
noncomputable def pFloor : Plane :=
  { name := "Floor", type := "opaque", area_m2 := 1, tilt_deg := 0, azimuth_deg := 0,
    U := 1, alpha := some 0, epsilon := some (9/10), ground_contact := true }

/-- A unit RC surface: R1 = R2 = R3 = C = area = 1, alpha = 0. -/
noncomputable def surfEx : Surf := ⟨1, 1, 1, 1, 0, 1⟩

/-- A unit RC envelope: five unit surfaces and a window of R = area =
g = 1. -/
noncomputable def envEx : Envelope := ⟨surfEx, surfEx, surfEx, surfEx, surfEx, ⟨1, 1, 1⟩⟩

/-- RC air side with zero volume and infiltration. -/
noncomputable def airEx : AirRC := ⟨0, 0⟩

/-- RC internal gains totalling 0.01 kW (10 W). -/
noncomputable def gainsEx : GainsRC := ⟨1 / 100⟩

/-- A south-facing unit window plane for the second steady engine:
area = r = g = F_sh = 1. -/
noncomputable def winEx : PlaneS :=
  { type := "window", area := 1, tilt := 90, azimuth := 180, r := 1,
    alpha := 0, g := 1, F_sh := 1 }

end BPS

namespace BPS

section PlaneLoopLemmas

variable {tout idir idif ths phs : ℕ → ℝ} {ilw tgnd : Option (ℕ → ℝ)} {T_heat T_cool : ℝ}

theorem planeStep_ground {p : Plane} (h1 : p.isOpaque = true) (h2 : p.ground_contact = true)
    {tg : ℕ → ℝ} (htg : tgnd = some tg) :
    planeStep p tout idir idif ths phs ilw tgnd T_heat T_cool =
      .ok (fun i => p.U * p.area_m2 * (tg i - T_heat),
           fun i => max 0 (p.U * p.area_m2 * (tg i - T_cool)),
           fun _ => 0) := by
  simp [planeStep, h1, h2, htg]

theorem planeStep_exposed {p : Plane} (h1 : p.isOpaque = true) (h2 : p.ground_contact = false)
    {a e : ℝ} (ha : p.alpha = some a) (he : p.epsilon = some e) :
    planeStep p tout idir idif ths phs ilw tgnd T_heat T_cool =
      .ok (fun i => p.U * p.area_m2 * (tout i - T_heat),
           fun i => p.U * p.area_m2 *
             (max (sol_air_temp (tout i)
                (plane_irradiance (idir i) (idif i)
                  (cos_incidence (ths i) (phs i) p.tilt_deg p.azimuth_deg) p.tilt_deg)
                a e (ilw.map (· i)) H_E) (tout i) - T_cool),
           fun _ => 0) := by
  simp [planeStep, h1, h2, ha, he]

theorem planeStep_window {p : Plane} (h1 : p.isOpaque = false) (h2 : p.isWindow = true)
    {gv : ℝ} (hg : p.g = some gv) :
    planeStep p tout idir idif ths phs ilw tgnd T_heat T_cool =
      .ok (fun i => p.U * p.area_m2 * (tout i - T_heat),
           fun i => p.U * p.area_m2 * (tout i - T_cool),
           fun i => gv * p.area_m2 *
             plane_irradiance (idir i) (idif i)
               (cos_incidence (ths i) (phs i) p.tilt_deg p.azimuth_deg) p.tilt_deg *
             p.F_sh.getD 1) := by
  simp [planeStep, h1, h2, hg]

theorem planeStep_other {p : Plane} (h1 : p.isOpaque = false) (h2 : p.isWindow = false) :
    planeStep p tout idir idif ths phs ilw tgnd T_heat T_cool =
      .ok (fun _ => 0, fun _ => 0, fun _ => 0) := by
  simp [planeStep, h1, h2]

theorem planeStep_bad {p : Plane} (h : badPlane p tgnd) :
    planeStep p tout idir idif ths phs ilw tgnd T_heat T_cool = .error (planeErrMsg p) := by
  rcases h with ⟨h1, h2, h3⟩ | ⟨h1, h2, h3⟩ | ⟨h1, h2, h3⟩
  · simp [planeStep, planeErrMsg, h1, h2, h3]
  · have h2' : p.ground_contact = false := by simpa using h2
    rcases h3 with h3 | h3 <;>
      rcases hae : p.alpha with _ | av <;> rcases hee : p.epsilon with _ | ev <;>
        simp_all [planeStep, planeErrMsg, h1, h2']
  · have h1' : p.isOpaque = false := by simpa using h1
    simp [planeStep, planeErrMsg, h1', h2, h3]

theorem planeStep_good {p : Plane} (h : ¬ badPlane p tgnd) :
    ∃ t, planeStep p tout idir idif ths phs ilw tgnd T_heat T_cool = .ok t := by
  by_cases h1 : p.isOpaque = true
  · by_cases h2 : p.ground_contact = true
    · rcases htg : tgnd with _ | tg
      · exact absurd (Or.inl ⟨h1, h2, htg⟩) h
      · exact ⟨_, planeStep_ground h1 h2 rfl⟩
    · have h2' : p.ground_contact = false := by simpa using h2
      rcases ha : p.alpha with _ | av
      · exact absurd (Or.inr (Or.inl ⟨h1, by simp [h2'], Or.inl ha⟩)) h
      rcases he : p.epsilon with _ | ev
      · exact absurd (Or.inr (Or.inl ⟨h1, by simp [h2'], Or.inr he⟩)) h
      exact ⟨_, planeStep_exposed h1 h2' ha he⟩
  · have h1' : p.isOpaque = false := by simpa using h1
    by_cases h2 : p.isWindow = true
    · rcases hg : p.g with _ | gv
      · exact absurd (Or.inr (Or.inr ⟨by simp [h1'], h2, hg⟩)) h
      · exact ⟨_, planeStep_window h1' h2 hg⟩
    · exact ⟨_, planeStep_other h1' (by simpa using h2)⟩

theorem planesLoop_nil :
    planesLoop [] tout idir idif ths phs ilw tgnd T_heat T_cool =
      .ok (fun _ => 0, fun _ => 0, fun _ => 0) := rfl

theorem planesLoop_cons_ok {p : Plane} {rest : List Plane} {a b c x y z : ℕ → ℝ}
    (hp : planeStep p tout idir idif ths phs ilw tgnd T_heat T_cool = .ok (a, b, c))
    (hr : planesLoop rest tout idir idif ths phs ilw tgnd T_heat T_cool = .ok (x, y, z)) :
    planesLoop (p :: rest) tout idir idif ths phs ilw tgnd T_heat T_cool =
      .ok (fun i => a i + x i, fun i => b i + y i, fun i => c i + z i) := by
  rw [planesLoop, hp]
  show (planesLoop rest tout idir idif ths phs ilw tgnd T_heat T_cool).bind _ = _
  rw [hr]
  rfl

theorem planesLoop_cons_err {p : Plane} {rest : List Plane} {m : String}
    (hp : planeStep p tout idir idif ths phs ilw tgnd T_heat T_cool = .error m) :
    planesLoop (p :: rest) tout idir idif ths phs ilw tgnd T_heat T_cool = .error m := by
  rw [planesLoop, hp]
  rfl

theorem planesLoop_cons_inv {p : Plane} {rest : List Plane}
    {t : (ℕ → ℝ) × (ℕ → ℝ) × (ℕ → ℝ)}
    (h : planesLoop (p :: rest) tout idir idif ths phs ilw tgnd T_heat T_cool = .ok t) :
    ∃ a b c x y z,
      planeStep p tout idir idif ths phs ilw tgnd T_heat T_cool = .ok (a, b, c) ∧
      planesLoop rest tout idir idif ths phs ilw tgnd T_heat T_cool = .ok (x, y, z) ∧
      t = (fun i => a i + x i, fun i => b i + y i, fun i => c i + z i) := by
  rcases hps : planeStep p tout idir idif ths phs ilw tgnd T_heat T_cool with m | ⟨a, b, c⟩
  · rw [planesLoop_cons_err hps] at h
    exact absurd h (by simp)
  · rcases hpl : planesLoop rest tout idir idif ths phs ilw tgnd T_heat T_cool with m | ⟨x, y, z⟩
    · rw [planesLoop, hps] at h
      revert h
      show (planesLoop rest tout idir idif ths phs ilw tgnd T_heat T_cool).bind _ = _ → _
      rw [hpl]
      intro h
      exact absurd h (by simp [Except.bind])
    · rw [planesLoop_cons_ok hps hpl] at h
      exact ⟨a, b, c, x, y, z, rfl, rfl, by simpa using h.symm⟩

theorem planesLoop_first_bad {planes : List Plane} {q : Plane}
    (hq : q ∈ planes) (hbad : badPlane q tgnd) :
    ∃ q', q' ∈ planes ∧ badPlane q' tgnd ∧
      planesLoop planes tout idir idif ths phs ilw tgnd T_heat T_cool =
        .error (planeErrMsg q') := by
  induction planes with
  | nil => cases hq
  | cons p rest ih =>
      by_cases hp : badPlane p tgnd
      · exact ⟨p, List.mem_cons_self p rest, hp,
          planesLoop_cons_err (planeStep_bad hp)⟩
      · have hqrest : q ∈ rest := by
          rcases List.mem_cons.mp hq with h | h
          · exact absurd (h ▸ hbad) hp
          · exact h
        obtain ⟨q', hq', hbad', herr⟩ := ih hqrest
        obtain ⟨⟨a, b, c⟩, hok⟩ := planeStep_good hp
        refine ⟨q', List.mem_cons_of_mem p hq', hbad', ?_⟩
        rw [planesLoop, hok]
        show (planesLoop rest tout idir idif ths phs ilw tgnd T_heat T_cool).bind _ = _
        rw [herr]
        rfl

end PlaneLoopLemmas

theorem run_hourly_missing {weather : Weather} {planes air T_heat T_cool gains kitchen_kw kitchen_on}
    {c : String} (h : firstMissingCol weather = some c) :
    run_hourly weather planes air T_heat T_cool gains kitchen_kw kitchen_on =
      .error ("Missing: " ++ c) := by
  rw [run_hourly, h]

theorem run_hourly_loop_err {weather : Weather} {planes air T_heat T_cool gains kitchen_kw kitchen_on}
    {m : String} (h0 : firstMissingCol weather = none)
    (h : planesLoop planes (colFun (weather.T_out_C.getD [])) (colFun (weather.I_dir_Wm2.getD []))
      (colFun (weather.I_dif_Wm2.getD [])) (colFun (weather.theta_s_deg.getD []))
      (colFun (weather.phi_s_deg.getD [])) (weather.I_LW_Wm2.map colFun)
      (weather.T_ground_C.map colFun) T_heat T_cool = .error m) :
    run_hourly weather planes air T_heat T_cool gains kitchen_kw kitchen_on = .error m := by
  rw [run_hourly, h0]
  simp only [h]

theorem run_hourly_ok_inv {weather : Weather} {planes air T_heat T_cool gains kitchen_kw kitchen_on}
    {rows : List ResultRow}
    (h : run_hourly weather planes air T_heat T_cool gains kitchen_kw kitchen_on = .ok rows) :
    firstMissingCol weather = none ∧
    ∃ qth qtc qsol,
      planesLoop planes (colFun (weather.T_out_C.getD [])) (colFun (weather.I_dir_Wm2.getD []))
        (colFun (weather.I_dif_Wm2.getD [])) (colFun (weather.theta_s_deg.getD []))
        (colFun (weather.phi_s_deg.getD [])) (weather.I_LW_Wm2.map colFun)
        (weather.T_ground_C.map colFun) T_heat T_cool = .ok (qth, qtc, qsol) ∧
      rows = hourlyTable (weather.timestamp.getD []) (colFun (weather.T_out_C.getD []))
        qth qtc qsol air T_heat T_cool gains kitchen_kw kitchen_on := by
  rcases h0 : firstMissingCol weather with _ | c
  · rw [run_hourly, h0] at h
    rcases hl : planesLoop planes (colFun (weather.T_out_C.getD []))
        (colFun (weather.I_dir_Wm2.getD [])) (colFun (weather.I_dif_Wm2.getD []))
        (colFun (weather.theta_s_deg.getD [])) (colFun (weather.phi_s_deg.getD []))
        (weather.I_LW_Wm2.map colFun) (weather.T_ground_C.map colFun) T_heat T_cool
      with m | ⟨qth, qtc, qsol⟩
    · rw [hl] at h
      exact absurd h (by simp)
    · rw [hl] at h
      exact ⟨rfl, qth, qtc, qsol, rfl, (by simpa using h.symm)⟩
  · rw [run_hourly_missing h0] at h
    exact absurd h (by simp)

/-- C2: for all inputs with R1, R2, R3, C, tau positive, the source's
calc_T_C returns exactly the spec's 3-resistor implicit-average update:
[(T_int[p]+T_int[p-1])/R1 + (T_ext[p]+T_ext[p-1])/(R2+R3)
 + alpha*R3/(R2+R3)*(I[p]+I[p-1]) + (2C/tau - 1/R1 - 1/(R2+R3))*T_C[p-1]]
/ (2C/tau + 1/R1 + 1/(R2+R3)). -/
theorem C2_calc_T_C_matches_spec
    (T_C_prev T_int_curr T_int_prev T_ext_curr T_ext_prev I_sol_curr I_sol_prev
      R1 R2 R3 C alpha tau : ℝ)
    (hR1 : 0 < R1) (hR2 : 0 < R2) (hR3 : 0 < R3) (hC : 0 < C) (htau : 0 < tau) :
    calc_T_C T_C_prev T_int_curr T_int_prev T_ext_curr T_ext_prev
        I_sol_curr I_sol_prev R1 R2 R3 C alpha tau =
      calc_T_C_specForm T_C_prev T_int_curr T_int_prev T_ext_curr T_ext_prev
        I_sol_curr I_sol_prev R1 R2 R3 C alpha tau := rfl

/-- Witness for C2 at a concrete input: all resistances, capacitance and
timestep 1, a nonzero state and forcing. -/
theorem C2_witness :
    (0:ℝ) < 1 ∧
      calc_T_C 3 21 20 5 4 100 90 1 1 1 1 (6/10) 1 =
        calc_T_C_specForm 3 21 20 5 4 100 90 1 1 1 1 (6/10) 1 :=
  ⟨by norm_num,
    C2_calc_T_C_matches_spec 3 21 20 5 4 100 90 1 1 1 1 (6/10) 1
      (by norm_num) (by norm_num) (by norm_num) (by norm_num) (by norm_num)⟩

/-- C5: sol-air temperature is exactly Tout + alpha*Iplane/h_e (in both
engine variants; the top-level variant ignores its epsilon and longwave
arguments), and for alpha >= 0, Iplane >= 0, h_e > 0 it never falls
below ambient, so the max(T_sol, T_out) cooling-boundary guard never
changes the value. -/
theorem C5_sol_air_formula_and_never_below_ambient
    (T_out I_p alpha epsilon : ℝ) (I_LW : Option ℝ) (h_e : ℝ)
    (ha : 0 ≤ alpha) (hI : 0 ≤ I_p) (hh : 0 < h_e) :
    sol_air T_out I_p alpha h_e = T_out + alpha * I_p / h_e ∧
    sol_air_temp T_out I_p alpha epsilon I_LW h_e = T_out + alpha * I_p / h_e ∧
    T_out ≤ sol_air T_out I_p alpha h_e ∧
    T_out ≤ sol_air_temp T_out I_p alpha epsilon I_LW h_e ∧
    max (sol_air_temp T_out I_p alpha epsilon I_LW h_e) T_out =
      sol_air_temp T_out I_p alpha epsilon I_LW h_e := by
  have hterm : 0 ≤ alpha * I_p / h_e := by positivity
  refine ⟨rfl, rfl, ?_, ?_, ?_⟩
  · simp only [sol_air]; linarith
  · simp only [sol_air_temp]; linarith
  · exact max_eq_left (by simp only [sol_air_temp]; linarith)

/-- Witness for C5 at a concrete input: Tout = 10, Iplane = 500,
alpha = 0.6, h_e = 25. -/
theorem C5_witness :
    (0:ℝ) ≤ 6/10 ∧ (0:ℝ) ≤ 500 ∧ (0:ℝ) < 25 ∧
      (sol_air 10 500 (6/10) 25 = 10 + (6/10) * 500 / 25 ∧
       sol_air_temp 10 500 (6/10) (9/10) none 25 = 10 + (6/10) * 500 / 25 ∧
       (10:ℝ) ≤ sol_air 10 500 (6/10) 25 ∧
       (10:ℝ) ≤ sol_air_temp 10 500 (6/10) (9/10) none 25 ∧
       max (sol_air_temp 10 500 (6/10) (9/10) none 25) 10 =
         sol_air_temp 10 500 (6/10) (9/10) none 25) :=
  ⟨by norm_num, by norm_num, by norm_num,
    C5_sol_air_formula_and_never_below_ambient 10 500 (6/10) (9/10) none 25
      (by norm_num) (by norm_num) (by norm_num)⟩

/-- C6: plane irradiance is exactly max(0, Idir*max(0, cos i)) +
Idif*(1+cos(tilt))/2 (in both engine variants); when cos i < 0 the beam
term contributes exactly 0, and for Idir, Idif >= 0 the result is
nonnegative. -/
theorem C6_plane_irradiance_formula
    (I_dir I_dif cos_i tilt : ℝ) :
    plane_irradiance I_dir I_dif cos_i tilt =
        max 0 (I_dir * max 0 cos_i) + I_dif * ((1 + Real.cos (deg2rad tilt)) / 2) ∧
    irradiance_on_plane I_dir I_dif cos_i tilt = plane_irradiance I_dir I_dif cos_i tilt ∧
    (cos_i < 0 →
      plane_irradiance I_dir I_dif cos_i tilt =
        I_dif * ((1 + Real.cos (deg2rad tilt)) / 2)) ∧
    (0 ≤ I_dir → 0 ≤ I_dif → 0 ≤ plane_irradiance I_dir I_dif cos_i tilt) := by
  have hsky : (0:ℝ) ≤ (1 + Real.cos (deg2rad tilt)) / 2 := by
    have := Real.neg_one_le_cos (deg2rad tilt)
    linarith
  refine ⟨by norm_num [plane_irradiance], by norm_num [plane_irradiance, irradiance_on_plane],
    ?_, ?_⟩
  · intro hneg
    have h0 : max 0 cos_i = 0 := max_eq_left hneg.le
    simp [plane_irradiance, h0]
  · intro h1 h2
    have hbeam : (0:ℝ) ≤ max 0 (I_dir * max 0 cos_i) := le_max_left 0 _
    have hdif : 0 ≤ I_dif * ((1 + Real.cos (deg2rad tilt)) / 2) := mul_nonneg h2 hsky
    simp only [plane_irradiance]
    linarith

theorem rcConstIter_step (R1 R2 R3 C alpha tau Tstar T0 : ℝ)
    (hR1 : 0 < R1) (hRe : 0 < R2 + R3) (hC : 0 < C) (htau : 0 < tau) (p : ℕ) :
    rcConstIter R1 R2 R3 C alpha tau Tstar T0 (p + 1) - Tstar =
      rcLam R1 R2 R3 C tau * (rcConstIter R1 R2 R3 C alpha tau Tstar T0 p - Tstar) := by
  have hD : (0:ℝ) < 2 * C / tau + (1 / R1 + 1 / (R2 + R3)) := by positivity
  show calc_T_C (rcConstIter R1 R2 R3 C alpha tau Tstar T0 p)
      Tstar Tstar Tstar Tstar 0 0 R1 R2 R3 C alpha tau - Tstar = _
  rw [calc_T_C, rcLam]
  field_simp
  ring

theorem rcConstIter_closed_form (R1 R2 R3 C alpha tau Tstar T0 : ℝ)
    (hR1 : 0 < R1) (hRe : 0 < R2 + R3) (hC : 0 < C) (htau : 0 < tau) (p : ℕ) :
    rcConstIter R1 R2 R3 C alpha tau Tstar T0 p - Tstar =
      rcLam R1 R2 R3 C tau ^ p * (T0 - Tstar) := by
  induction p with
  | zero => simp [rcConstIter]
  | succ q ih =>
      rw [rcConstIter_step R1 R2 R3 C alpha tau Tstar T0 hR1 hRe hC htau q, ih,
        pow_succ]
      ring

theorem rcLam_abs_lt_one (R1 R2 R3 C tau : ℝ)
    (hR1 : 0 < R1) (hRe : 0 < R2 + R3) (hC : 0 < C) (htau : 0 < tau) :
    |rcLam R1 R2 R3 C tau| < 1 := by
  have ha : (0:ℝ) < 1 / R1 + 1 / (R2 + R3) := by positivity
  have hct : (0:ℝ) < 2 * C / tau := by positivity
  have hD : (0:ℝ) < 2 * C / tau + (1 / R1 + 1 / (R2 + R3)) := by linarith
  rw [rcLam, abs_div, abs_of_pos hD, div_lt_one hD, abs_lt]
  constructor <;> linarith

/-- C3 (amended): for positive R1, R2, R3, C and timestep tau, under
constant forcing T_int = T_ext = Tstar with zero solar input the
iterated recurrence converges to Tstar from every initial value, with
|T_C[p] - Tstar| non-increasing; but the no-overshoot (never crossing to
the opposite side of Tstar) holds only under the additional timestep
condition 1/R1 + 1/(R2+R3) <= 2C/tau, not unconditionally. -/
theorem C3_constant_forcing_convergence
    (R1 R2 R3 C alpha tau Tstar T0 : ℝ)
    (hR1 : 0 < R1) (hR2 : 0 < R2) (hR3 : 0 < R3) (hC : 0 < C) (htau : 0 < tau) :
    (∀ p, |rcConstIter R1 R2 R3 C alpha tau Tstar T0 (p + 1) - Tstar| ≤
        |rcConstIter R1 R2 R3 C alpha tau Tstar T0 p - Tstar|) ∧
    Filter.Tendsto (rcConstIter R1 R2 R3 C alpha tau Tstar T0)
      Filter.atTop (nhds Tstar) ∧
    (1 / R1 + 1 / (R2 + R3) ≤ 2 * C / tau →
      ∀ p, 0 ≤ (T0 - Tstar) * (rcConstIter R1 R2 R3 C alpha tau Tstar T0 p - Tstar)) := by
  have hRe : 0 < R2 + R3 := by linarith
  have habs := rcLam_abs_lt_one R1 R2 R3 C tau hR1 hRe hC htau
  refine ⟨?_, ?_, ?_⟩
  · intro p
    rw [rcConstIter_step R1 R2 R3 C alpha tau Tstar T0 hR1 hRe hC htau p, abs_mul]
    exact mul_le_of_le_one_left (abs_nonneg _) habs.le
  · have hpow : Filter.Tendsto (fun p : ℕ => rcLam R1 R2 R3 C tau ^ p * (T0 - Tstar))
        Filter.atTop (nhds (0 * (T0 - Tstar))) :=
      (tendsto_pow_atTop_nhds_zero_iff.mpr habs).mul_const _
    rw [zero_mul] at hpow
    have := hpow.const_add Tstar
    rw [add_zero] at this
    refine this.congr (fun p => ?_)
    have h := rcConstIter_closed_form R1 R2 R3 C alpha tau Tstar T0 hR1 hRe hC htau p
    linarith
  · intro hcond p
    have hlam : 0 ≤ rcLam R1 R2 R3 C tau := by
      have hD : (0:ℝ) < 2 * C / tau + (1 / R1 + 1 / (R2 + R3)) := by positivity
      exact div_nonneg (by linarith) hD.le
    rw [rcConstIter_closed_form R1 R2 R3 C alpha tau Tstar T0 hR1 hRe hC htau p]
    have : (T0 - Tstar) * (rcLam R1 R2 R3 C tau ^ p * (T0 - Tstar)) =
        rcLam R1 R2 R3 C tau ^ p * (T0 - Tstar) ^ 2 := by ring
    rw [this]
    positivity

/-- C3 counterexample: with R1 = R2 = R3 = C = 1 (all positive) and
timestep tau = 4, constant forcing Tstar = 1 and initial value T0 = 0,
the first iterate is 3/2: the sequence crosses from below Tstar to above
it in one step, so convergence is not monotonic without overshoot for
every positive timestep as claimed. -/
theorem C3_counterexample :
    rcConstIter 1 1 1 1 0 4 1 0 0 = 0 ∧
    rcConstIter 1 1 1 1 0 4 1 0 1 = 3 / 2 ∧
    (rcConstIter 1 1 1 1 0 4 1 0 0 - 1) * (rcConstIter 1 1 1 1 0 4 1 0 1 - 1) < 0 := by
  have h0 : rcConstIter 1 1 1 1 0 4 1 0 0 = 0 := rfl
  have h1 : rcConstIter 1 1 1 1 0 4 1 0 1 = 3 / 2 := by
    show calc_T_C (rcConstIter 1 1 1 1 0 4 1 0 0) 1 1 1 1 0 0 1 1 1 1 0 4 = 3 / 2
    rw [h0, calc_T_C]
    norm_num
  refine ⟨h0, h1, ?_⟩
  rw [h0, h1]
  norm_num

/-- Witness for C3 at a concrete input: unit resistances, capacitance
and timestep (which satisfy the no-overshoot side condition
1/R1 + 1/(R2+R3) = 3/2 <= 2 = 2C/tau), Tstar = 5, T0 = 0. -/
theorem C3_witness :
    ((∀ p, |rcConstIter 1 1 1 1 0 1 5 0 (p + 1) - 5| ≤
        |rcConstIter 1 1 1 1 0 1 5 0 p - 5|) ∧
      Filter.Tendsto (rcConstIter 1 1 1 1 0 1 5 0) Filter.atTop (nhds 5) ∧
      ((1:ℝ) / 1 + 1 / (1 + 1) ≤ 2 * 1 / 1 →
        ∀ p, 0 ≤ ((0:ℝ) - 5) * (rcConstIter 1 1 1 1 0 1 5 0 p - 5))) :=
  C3_constant_forcing_convergence 1 1 1 1 0 1 5 0
    (by norm_num) (by norm_num) (by norm_num) (by norm_num) (by norm_num)

/-- Witness for C6 at a concrete input: the sun behind the plane
(cos i = -1/2) on a horizontal surface with Idir = 300, Idif = 80. -/
theorem C6_witness :
    (plane_irradiance 300 80 (-(1/2)) 0 =
        max 0 (300 * max 0 (-(1/2))) + 80 * ((1 + Real.cos (deg2rad 0)) / 2) ∧
      irradiance_on_plane 300 80 (-(1/2)) 0 = plane_irradiance 300 80 (-(1/2)) 0 ∧
      plane_irradiance 300 80 (-(1/2)) 0 = 80 * ((1 + Real.cos (deg2rad 0)) / 2) ∧
      (0:ℝ) ≤ plane_irradiance 300 80 (-(1/2)) 0) := by
  have h := C6_plane_irradiance_formula 300 80 (-(1/2)) 0
  exact ⟨h.1, h.2.1, h.2.2.1 (by norm_num), h.2.2.2 (by norm_num) (by norm_num)⟩

theorem deg2rad_zero_eval : Real.cos (deg2rad 0) = 1 := by
  have h : deg2rad 0 = 0 := by rw [deg2rad]; ring
  rw [h, Real.cos_zero]

theorem deg2rad_ninety_eval : Real.cos (deg2rad 90) = 0 := by
  have h : deg2rad 90 = Real.pi / 2 := by rw [deg2rad]; ring
  rw [h, Real.cos_pi_div_two]

/-- C1 (amended): in the steady-state engine of physics.py every result
row's heating demand is max(0, -(Q_trans_h + Q_air_h)) — only the
transmission and air-exchange loss terms enter, with solar and internal
gains excluded; in the RC engine of src/rc_model.py and in the second
steady-state engine of src/physics.py, however, every row's heating
demand is max(0, Q_roof + Q_walls + Q_win + Q_inf + Q_vent - Q_solar -
Q_int): those two engines subtract the solar and internal gains inside
the clamp instead of excluding them. -/
theorem C1_heating_demand_aggregation :
    (∀ weather planes air T_heat T_cool gains kitchen_kw kitchen_on rows,
      run_hourly weather planes air T_heat T_cool gains kitchen_kw kitchen_on = .ok rows →
      ∀ r ∈ rows, r.Q_heat_W = max 0 (-(r.Q_trans_h_W + r.Q_air_h_W))) ∧
    (∀ ts touts thss phss idirs idifs env air T_set vent_ACH gains dt,
      ∀ r ∈ run_rc_hourly ts touts thss phss idirs idifs env air T_set vent_ACH gains dt,
        r.Q_heat_W = max 0 (r.Q_roof_W + r.Q_walls_W + r.Q_win_W + r.Q_inf_W + r.Q_vent_W -
          r.Q_solar_W - r.Q_int_W)) ∧
    (∀ ts touts thss phss idirs idifs planes air T_set vent_ACH gains,
      ∀ r ∈ SrcPhysics.run_hourly ts touts thss phss idirs idifs planes air T_set
          vent_ACH gains,
        r.Q_heat_W = max 0 (r.Q_roof_W + r.Q_walls_W + r.Q_win_W + r.Q_inf_W + r.Q_vent_W -
          r.Q_solar_W - r.Q_int_W)) := by
  refine ⟨?_, ?_, ?_⟩
  · intro weather planes air T_heat T_cool gains kitchen_kw kitchen_on rows hrun r hr
    obtain ⟨-, qth, qtc, qsol, -, hrows⟩ := run_hourly_ok_inv hrun
    subst hrows
    simp only [hourlyTable, List.mem_map, List.mem_range] at hr
    obtain ⟨i, hi, rfl⟩ := hr
    simp only []
    congr 1
    ring
  · intro ts touts thss phss idirs idifs env air T_set vent_ACH gains dt r hr
    unfold run_rc_hourly at hr
    simp only [List.mem_map, List.mem_range] at hr
    obtain ⟨i, hi, rfl⟩ := hr
    rfl
  · intro ts touts thss phss idirs idifs planes air T_set vent_ACH gains r hr
    unfold SrcPhysics.run_hourly at hr
    simp only [List.mem_map, List.mem_range] at hr
    obtain ⟨i, hi, rfl⟩ := hr
    rfl

/-- Evaluation of the steady-state engine at the simple one-row weather
table with no planes: one result row, everything zero except the
temperatures. -/
theorem run_hourly_simple_eval :
    run_hourly wSimple [] airZero 20 25 none 0 none =
      .ok [⟨0, 20, 0, 0, 0, 0, 0, 0, 0, 0, 0⟩] := by
  have h0 : firstMissingCol wSimple = none := rfl
  have hr1 : List.range 1 = [0] := rfl
  rw [run_hourly, h0, planesLoop_nil]
  simp only [hourlyTable, wSimple, airFactor, airZero, gainsTerm, kitchenTerm, colFun]
  norm_num [hr1]

/-- Witness for C1 at concrete inputs: the simple steady-state run, and
the RC row produced by the counterexample configuration. -/
theorem C1_witness :
    (ResultRow.mk 0 20 0 0 0 0 0 0 0 0 0).Q_heat_W =
      max 0 (-((ResultRow.mk 0 20 0 0 0 0 0 0 0 0 0).Q_trans_h_W +
        (ResultRow.mk 0 20 0 0 0 0 0 0 0 0 0).Q_air_h_W)) :=
  C1_heating_demand_aggregation.1 wSimple [] airZero 20 25 none 0 none _
    run_hourly_simple_eval _ (List.mem_singleton.mpr rfl)

/-- C1 counterexample: first, a one-step RC run with unit surfaces,
T_set = T_out = 20, diffuse irradiance 40 and internal gains 10 W: the
loss terms sum to 50 W but the engine reports a heating demand of 20 W,
crediting the solar gain (20 W) and internal gain (10 W) against the
losses; second, a one-row run of the second steady-state engine
(src/physics.py run_hourly) with a single unit window, T_set = 20,
T_out = 10, diffuse irradiance 40 and internal gains 10 W: the loss
terms sum to 10 W but that engine reports a heating demand of 0 W,
crediting the solar gain (20 W) and internal gain (10 W).  Both refute
the claim that the heating demand equals max(0, sum of losses) with
solar and internal gains excluded. -/
theorem C1_counterexample :
    (run_rc_hourly [0] [20] [0] [0] [0] [40] envEx airEx 20 0 gainsEx 15).map
        (fun r => r.Q_heat_W) = [20] ∧
    (run_rc_hourly [0] [20] [0] [0] [0] [40] envEx airEx 20 0 gainsEx 15).map
        (fun r => r.Q_roof_W + r.Q_walls_W + r.Q_win_W + r.Q_inf_W + r.Q_vent_W) = [50] ∧
    (20:ℝ) ≠ max 0 50 ∧
    (SrcPhysics.run_hourly [0] [10] [0] [0] [0] [40] [winEx] airEx 20 none
        (some gainsEx)).map (fun r => r.Q_heat_W) = [0] ∧
    (SrcPhysics.run_hourly [0] [10] [0] [0] [0] [40] [winEx] airEx 20 none
        (some gainsEx)).map
        (fun r => r.Q_roof_W + r.Q_walls_W + r.Q_win_W + r.Q_inf_W + r.Q_vent_W) = [10] ∧
    (0:ℝ) ≠ max 0 10 := by
  have hr1 : List.range 1 = [0] := rfl
  refine ⟨?_, ?_, by norm_num, ?_, ?_, by norm_num⟩
  · unfold run_rc_hourly
    norm_num [T_C_seq, calc_heat_flux, colFun, irradiance_on_plane, envEx, airEx,
      gainsEx, surfEx, deg2rad_ninety_eval, hr1]
  · unfold run_rc_hourly
    norm_num [T_C_seq, calc_heat_flux, colFun, irradiance_on_plane, envEx, airEx,
      gainsEx, surfEx, deg2rad_ninety_eval, hr1]
  · unfold SrcPhysics.run_hourly
    have hwo : ¬("window" = "opaque") := by decide
    norm_num [sLoop, colFun, irradiance_on_plane, sol_air, PlaneS.isOpaque, PlaneS.isWindow,
      winEx, airEx, gainsEx, deg2rad_ninety_eval, hr1, hwo]
  · unfold SrcPhysics.run_hourly
    have hwo : ¬("window" = "opaque") := by decide
    norm_num [sLoop, colFun, irradiance_on_plane, sol_air, PlaneS.isOpaque, PlaneS.isWindow,
      winEx, airEx, gainsEx, deg2rad_ninety_eval, hr1, hwo]

/-- C4: when the steady-state engine computes cooling, a ground-coupled
opaque plane's transmission term is clipped at 0 (its per-timestep
contribution is nonnegative, never a free-cooling credit), an exposed
opaque plane's cooling term is accumulated unclipped, and the plane
loop sums the per-plane contributions into Q_trans_c. -/
theorem C4_ground_cooling_clipped :
    (∀ (p : Plane) (tout idir idif ths phs : ℕ → ℝ) (ilw : Option (ℕ → ℝ)) (tg : ℕ → ℝ)
        (T_heat T_cool : ℝ), p.isOpaque = true → p.ground_contact = true →
      planeStep p tout idir idif ths phs ilw (some tg) T_heat T_cool =
        .ok (fun i => p.U * p.area_m2 * (tg i - T_heat),
             fun i => max 0 (p.U * p.area_m2 * (tg i - T_cool)),
             fun _ => 0) ∧
      ∀ i, 0 ≤ max 0 (p.U * p.area_m2 * (tg i - T_cool))) ∧
    (∀ (p : Plane) (tout idir idif ths phs : ℕ → ℝ) (ilw tgnd : Option (ℕ → ℝ)) (a e : ℝ)
        (T_heat T_cool : ℝ), p.isOpaque = true → p.ground_contact = false →
      p.alpha = some a → p.epsilon = some e →
      planeStep p tout idir idif ths phs ilw tgnd T_heat T_cool =
        .ok (fun i => p.U * p.area_m2 * (tout i - T_heat),
             fun i => p.U * p.area_m2 *
               (max (sol_air_temp (tout i)
                  (plane_irradiance (idir i) (idif i)
                    (cos_incidence (ths i) (phs i) p.tilt_deg p.azimuth_deg) p.tilt_deg)
                  a e (ilw.map (· i)) H_E) (tout i) - T_cool),
             fun _ => 0)) ∧
    (∀ (p : Plane) (rest : List Plane) (tout idir idif ths phs : ℕ → ℝ)
        (ilw tgnd : Option (ℕ → ℝ)) (T_heat T_cool : ℝ) (a b c x y z : ℕ → ℝ),
      planeStep p tout idir idif ths phs ilw tgnd T_heat T_cool = .ok (a, b, c) →
      planesLoop rest tout idir idif ths phs ilw tgnd T_heat T_cool = .ok (x, y, z) →
      planesLoop (p :: rest) tout idir idif ths phs ilw tgnd T_heat T_cool =
        .ok (fun i => a i + x i, fun i => b i + y i, fun i => c i + z i)) := by
  refine ⟨?_, ?_, ?_⟩
  · intro p tout idir idif ths phs ilw tg Th Tc h1 h2
    exact ⟨planeStep_ground h1 h2 rfl, fun _ => le_max_left 0 _⟩
  · intro p tout idir idif ths phs ilw tgnd a e Th Tc h1 h2 ha he
    exact planeStep_exposed h1 h2 ha he
  · intro p rest tout idir idif ths phs ilw tgnd Th Tc a b c x y z hp hr
    exact planesLoop_cons_ok hp hr

/-- Witness for C4 at a concrete input: the ground-coupled unit floor
plane against T_cool = 25 with ground temperature 10. -/
theorem C4_witness :
    (planeStep pFloor (fun _ : ℕ => (20:ℝ)) (fun _ : ℕ => (0:ℝ)) (fun _ : ℕ => (0:ℝ))
        (fun _ : ℕ => (0:ℝ)) (fun _ : ℕ => (0:ℝ)) none (some fun _ : ℕ => (10:ℝ)) 20 25 =
      .ok (fun i => pFloor.U * pFloor.area_m2 * ((fun _ : ℕ => (10:ℝ)) i - 20),
           fun i => max 0 (pFloor.U * pFloor.area_m2 * ((fun _ : ℕ => (10:ℝ)) i - 25)),
           fun _ => 0) ∧
      ∀ i, 0 ≤ max 0 (pFloor.U * pFloor.area_m2 * ((fun _ : ℕ => (10:ℝ)) i - 25))) :=
  C4_ground_cooling_clipped.1 pFloor (fun _ => 20) (fun _ => 0) (fun _ => 0) (fun _ => 0)
    (fun _ => 0) none (fun _ => 10) 20 25 rfl rfl

/-- C7: a missing required weather column makes run_hourly fail, before
computing anything, with the error "Missing: <column>" naming a missing
required column; and, with all required columns present, a plane
missing the property its kind/boundary condition requires makes
run_hourly fail with an error naming an offending plane and its missing
property, with no result table returned.  (The source raises both as
Python ValueError; the error text carries the identification.) -/
theorem C7_validation_errors :
    (∀ weather planes air T_heat T_cool gains kitchen_kw kitchen_on (c : String),
      firstMissingCol weather = some c →
      c ∈ reqCols ∧ weather.col c = none ∧
      run_hourly weather planes air T_heat T_cool gains kitchen_kw kitchen_on =
        .error ("Missing: " ++ c)) ∧
    (∀ weather planes air T_heat T_cool gains kitchen_kw kitchen_on (q : Plane),
      firstMissingCol weather = none →
      q ∈ planes → badPlane q (weather.T_ground_C.map colFun) →
      ∃ q', q' ∈ planes ∧ badPlane q' (weather.T_ground_C.map colFun) ∧
        run_hourly weather planes air T_heat T_cool gains kitchen_kw kitchen_on =
          .error (planeErrMsg q')) := by
  constructor
  · intro weather planes air T_heat T_cool gains kitchen_kw kitchen_on c h
    refine ⟨List.mem_of_find?_eq_some h, ?_, run_hourly_missing h⟩
    have := List.find?_some h
    simpa [Option.isNone_iff_eq_none] using this
  · intro weather planes air T_heat T_cool gains kitchen_kw kitchen_on q h0 hq hbad
    obtain ⟨q', hq', hbad', herr⟩ := planesLoop_first_bad hq hbad
    exact ⟨q', hq', hbad', run_hourly_loop_err h0 herr⟩

/-- Witness for C7 at a concrete input: a weather table whose T_out_C
column is absent. -/
theorem C7_witness :
    ("T_out_C" ∈ reqCols ∧
      (Weather.mk (some [0]) none none none none none none none).col "T_out_C" = none ∧
      run_hourly (Weather.mk (some [0]) none none none none none none none) [] airZero
        20 25 none 0 none = .error ("Missing: " ++ "T_out_C")) :=
  C7_validation_errors.1 (Weather.mk (some [0]) none none none none none none none)
    [] airZero 20 25 none 0 none "T_out_C" rfl

theorem planeStep_ok_qh_zero {tout idir idif ths phs : ℕ → ℝ} {ilw tgnd : Option (ℕ → ℝ)}
    {T_heat T_cool : ℝ} {p : Plane} {a b c : ℕ → ℝ}
    (hng : p.ground_contact = false)
    (hp : planeStep p tout idir idif ths phs ilw tgnd T_heat T_cool = .ok (a, b, c))
    {i : ℕ} (ht : tout i = T_heat) : a i = 0 := by
  by_cases h1 : p.isOpaque = true
  · rcases ha : p.alpha with _ | av
    · rw [planeStep_bad (Or.inr (Or.inl ⟨h1, by simp [hng], Or.inl ha⟩))] at hp
      cases hp
    rcases he : p.epsilon with _ | ev
    · rw [planeStep_bad (Or.inr (Or.inl ⟨h1, by simp [hng], Or.inr he⟩))] at hp
      cases hp
    rw [planeStep_exposed h1 hng ha he] at hp
    simp only [Except.ok.injEq, Prod.mk.injEq] at hp
    rw [← hp.1]
    simp [ht]
  · have h1' : p.isOpaque = false := by simpa using h1
    by_cases h2 : p.isWindow = true
    · rcases hg : p.g with _ | gv
      · rw [planeStep_bad (Or.inr (Or.inr ⟨by simp [h1'], h2, hg⟩))] at hp
        cases hp
      rw [planeStep_window h1' h2 hg] at hp
      simp only [Except.ok.injEq, Prod.mk.injEq] at hp
      rw [← hp.1]
      simp [ht]
    · rw [planeStep_other h1' (by simpa using h2)] at hp
      simp only [Except.ok.injEq, Prod.mk.injEq] at hp
      rw [← hp.1]

theorem planesLoop_no_ground_qh {tout idir idif ths phs : ℕ → ℝ} {ilw tgnd : Option (ℕ → ℝ)}
    {T_heat T_cool : ℝ} {planes : List Plane} {qh qc qs : ℕ → ℝ}
    (hng : ∀ p ∈ planes, p.ground_contact = false)
    (h : planesLoop planes tout idir idif ths phs ilw tgnd T_heat T_cool = .ok (qh, qc, qs))
    {i : ℕ} (ht : tout i = T_heat) : qh i = 0 := by
  induction planes generalizing qh qc qs with
  | nil =>
      rw [planesLoop_nil] at h
      simp only [Except.ok.injEq, Prod.mk.injEq] at h
      rw [← h.1]
  | cons p rest ih =>
      obtain ⟨a, b, c, x, y, z, hp, hr, heq⟩ := planesLoop_cons_inv h
      have hpz : a i = 0 :=
        planeStep_ok_qh_zero (hng p (List.mem_cons_self p rest)) hp ht
      have hrz : x i = 0 :=
        ih (fun q hq => hng q (List.mem_cons_of_mem p hq)) hr
      have hq : qh = fun j => a j + x j := congrArg Prod.fst heq
      rw [hq]
      simp [hpz, hrz]

/-- C8 (amended): if the outdoor temperature equals the heating setpoint
at every timestep, no gains are passed, and no plane is ground-coupled,
then the steady-state engine's heating demand is exactly 0 in every
result row.  (The restriction to non-ground-coupled planes is forced: a
ground-coupled plane's heating boundary is the ground temperature,
which may differ from the setpoint.) -/
theorem C8_equilibrium_zero_heating
    (weather : Weather) (planes : List Plane) (air : AirSide) (T_heat T_cool : ℝ)
    (rows : List ResultRow) (touts : List ℝ)
    (htout : weather.T_out_C = some touts)
    (hlen : (weather.timestamp.getD []).length ≤ touts.length)
    (hconst : ∀ x ∈ touts, x = T_heat)
    (hng : ∀ p ∈ planes, p.ground_contact = false)
    (hrun : run_hourly weather planes air T_heat T_cool none 0 none = .ok rows) :
    ∀ r ∈ rows, r.Q_heat_W = 0 := by
  intro r hr
  obtain ⟨-, qth, qtc, qsol, hloop, hrows⟩ := run_hourly_ok_inv hrun
  subst hrows
  simp only [hourlyTable, List.mem_map, List.mem_range] at hr
  obtain ⟨i, hi, rfl⟩ := hr
  have hti : colFun (weather.T_out_C.getD []) i = T_heat := by
    rw [htout]
    have hilen : i < touts.length := lt_of_lt_of_le hi hlen
    have : touts.getD i 0 = touts.get ⟨i, hilen⟩ := List.getD_eq_getElem touts 0 hilen
    rw [colFun, Option.getD_some, this]
    exact hconst _ (List.get_mem touts i hilen)
  have hqth : qth i = 0 := planesLoop_no_ground_qh hng hloop hti
  simp only []
  rw [hqth, hti]
  simp

/-- C8 counterexample: a one-row weather table with T_out = T_heat = 20
everywhere and all gains zero, but with a ground-coupled unit floor
plane over 10-degree ground: the engine accepts the input and reports a
heating demand of 10 W, not 0. -/
theorem C8_counterexample :
    (run_hourly wGround [pFloor] airZero 20 25 none 0 none).map
        (List.map fun r => r.Q_heat_W) = .ok [10] ∧ (10:ℝ) ≠ 0 := by
  have h0 : firstMissingCol wGround = none := rfl
  have hps : planeStep pFloor (colFun [20]) (colFun [0]) (colFun [0]) (colFun [0])
      (colFun [0]) none (some (colFun [10])) 20 25 =
      .ok (fun i => pFloor.U * pFloor.area_m2 * (colFun [10] i - 20),
           fun i => max 0 (pFloor.U * pFloor.area_m2 * (colFun [10] i - 25)),
           fun _ => 0) := planeStep_ground (p := pFloor) rfl rfl rfl
  have hloop := planesLoop_cons_ok hps
    (@planesLoop_nil (colFun [20]) (colFun [0]) (colFun [0]) (colFun [0]) (colFun [0])
      none (some (colFun [10])) 20 25)
  have hr1 : List.range 1 = [0] := rfl
  rw [run_hourly, h0]
  simp only [wGround, Option.getD_some, Option.map_some', Option.map_none']
  rw [hloop]
  simp only [Except.map, hourlyTable, hr1, List.map_map, List.map_cons, List.map_nil,
    Except.ok.injEq, Function.comp]
  constructor
  · norm_num [hr1, gainsTerm, kitchenTerm, pFloor, colFun, airFactor, airZero]
  · norm_num

/-- Witness for C8 at a concrete input: the simple one-row run with no
planes, T_out = T_heat = 20. -/
theorem C8_witness :
    (ResultRow.mk 0 20 0 0 0 0 0 0 0 0 0).Q_heat_W = 0 :=
  C8_equilibrium_zero_heating wSimple [] airZero 20 25 _ [20] rfl (by simp [wSimple])
    (by norm_num) (by simp) run_hourly_simple_eval _ (List.mem_singleton.mpr rfl)

theorem range_map_getD (l : List ℝ) :
    (List.range l.length).map (fun i => l.getD i 0) = l := by
  apply List.ext_getElem
  · simp
  · intro i h1 h2
    simp only [List.getElem_map, List.getElem_range]
    exact List.getD_eq_getElem l 0 h2

/-- C10: a weather table the steady-state engine accepts produces
exactly one result row per input weather row, and the result's
timestamp column equals the input timestamp column elementwise, in the
same order. -/
theorem C10_rows_preserved
    (weather : Weather) (planes : List Plane) (air : AirSide) (T_heat T_cool : ℝ)
    (gains : Option InternalGains) (kitchen_kw : ℝ) (kitchen_on : Option (List Bool))
    (rows : List ResultRow) (ts : List ℝ)
    (hts : weather.timestamp = some ts)
    (hrun : run_hourly weather planes air T_heat T_cool gains kitchen_kw kitchen_on = .ok rows) :
    rows.length = ts.length ∧ rows.map (fun r => r.timestamp) = ts := by
  obtain ⟨-, qth, qtc, qsol, -, hrows⟩ := run_hourly_ok_inv hrun
  subst hrows
  rw [hts]
  constructor
  · simp [hourlyTable]
  · simp only [hourlyTable, Option.getD_some, List.map_map]
    have : ((fun r : ResultRow => r.timestamp) ∘ fun i =>
        ({ timestamp := ts.getD i 0
           T_out_C := colFun (weather.T_out_C.getD []) i
           Q_trans_h_W := qth i
           Q_air_h_W := airFactor air * (colFun (weather.T_out_C.getD []) i - T_heat)
           Q_heat_W := max 0 (-(qth i) - airFactor air * (colFun (weather.T_out_C.getD []) i - T_heat))
           Q_trans_c_W := qtc i
           Q_air_c_W := airFactor air * (colFun (weather.T_out_C.getD []) i - T_cool)
           Q_solar_W := qsol i
           Q_int_W := gainsTerm gains
           Q_kitchen_W := kitchenTerm kitchen_kw kitchen_on i
           Q_cool_W := max 0 (qtc i + airFactor air * (colFun (weather.T_out_C.getD []) i - T_cool) +
             qsol i + gainsTerm gains + kitchenTerm kitchen_kw kitchen_on i) } : ResultRow)) =
        fun i => ts.getD i 0 := rfl
    rw [this, range_map_getD]

/-- Witness for C10 at a concrete input: the simple one-row run. -/
theorem C10_witness :
    ([(ResultRow.mk 0 20 0 0 0 0 0 0 0 0 0 : ResultRow)].length = [(0:ℝ)].length ∧
      [(ResultRow.mk 0 20 0 0 0 0 0 0 0 0 0 : ResultRow)].map (fun r => r.timestamp) = [(0:ℝ)]) :=
  C10_rows_preserved wSimple [] airZero 20 25 none 0 none _ [0] rfl run_hourly_simple_eval

end BPS
